import Mathlib

/-!
Verification development for the `bouncer-examples` repository
(`examples/pyramid_demo.py`): a Pyramid web application demonstrating the
OAuth2 authorization-code flow against the Bouncer identity provider.

The Python module is shallowly embedded below.  Conventions:

* Python strings are Lean `String`s; a Python 2 `str` is a byte string, so
  theorems about percent-encoding carry the hypothesis that every character
  has code point < 256.
* `request.params` (query parameters) is an association list
  `List (String × String)`; `params.get(k)` is `getParam`, returning
  `Option String` (`none` models Python `None`).
* Parsed JSON response bodies (`response.json` of the old `requests`
  library) are values of the inductive `Json`; both back-channel responses
  in the demo are JSON objects, embedded as their field lists.
* The two outbound HTTP requests made by `callback_view` are recorded in an
  explicit trace `List HttpCall`, in program order; the parsed bodies the
  endpoints would return are passed in as arguments (`token_json`,
  `user_json`).  A call absent from the trace was never issued.
* Python runtime faults that the reference code can raise (`KeyError`,
  `AttributeError`, `NameError`) are embedded as `PyError`; a handler
  returns `Except PyError Resp`, where `Except.error` models an unhandled
  exception propagating out of the view callable.
-/

/-- Python `str(x)` for an optional string: `None` prints as `"None"`. -/
def pyStr : Option String → String
  | none => "None"
  | some s => s

/-- Truthiness of an optional string, as in Python `if error:`:
`None` and the empty string are falsy, every other string is truthy. -/
def truthy : Option String → Bool
  | none => false
  | some s => !s.isEmpty

/-- Model of `request.params.get(k)`: first value bound to `k`, else `None`. -/
def getParam (ps : List (String × String)) (k : String) : Option String :=
  (ps.find? (fun kv => kv.1 == k)).map (fun kv => kv.2)

/-- Parsed JSON values, as returned by `response.json` in the demo. -/
inductive Json where
  | null : Json
  | str (s : String) : Json
  | obj (fields : List (String × Json)) : Json

/-- Field lookup in a JSON object body (Python `d[k]` / `d.get(k)` support). -/
def jsonLookup (fields : List (String × Json)) (k : String) : Option Json :=
  (fields.find? (fun kv => kv.1 == k)).map (fun kv => kv.2)

/-- Python `d.get(k)` on an object body: missing keys yield `None`. -/
def jsonGetD (fields : List (String × Json)) (k : String) : Json :=
  (jsonLookup fields k).getD Json.null

mutual

/-- Python `repr` of an embedded JSON value (used when a dict is
interpolated into a string). -/
def Json.pyRepr : Json → String
  | Json.null => "None"
  | Json.str s => "u\x27" ++ s ++ "\x27"
  | Json.obj fields => "\x7b" ++ pyReprFields fields ++ "\x7d"

/-- Comma-separated `repr` of a dict's key/value pairs. -/
def pyReprFields : List (String × Json) → String
  | [] => ""
  | [kv] => "\x27" ++ kv.1 ++ "\x27: " ++ Json.pyRepr kv.2
  | kv :: rest => "\x27" ++ kv.1 ++ "\x27: " ++ Json.pyRepr kv.2 ++ ", " ++ pyReprFields rest

end

/-- Python `str(x)` / `"{0}".format(x)` on an embedded JSON value:
strings print verbatim, `None` prints as `"None"`, dicts print via `repr`. -/
def Json.pyFormat : Json → String
  | Json.null => "None"
  | Json.str s => s
  | Json.obj fields => Json.pyRepr (Json.obj fields)

/-- Unhandled Python runtime faults the reference code can raise. -/
inductive PyError where
  | keyError (k : String) : PyError
  | attributeError (attr : String) : PyError
  | nameError (name : String) : PyError

/-- Authentication attached to an outbound `requests.get` call: a
`(user, password)` tuple (HTTP Basic) or a `BearerAuth` instance holding the
access token. -/
inductive Auth where
  | basic (user password : Option String) : Auth
  | bearer (access_token : Json) : Auth

/-- The `Authorization` header value produced by `BearerAuth.__call__`
(line 43 of the source): `'Bearer {0}'.format(self.access_token)`. -/
def BearerAuth.headerValue (access_token : Json) : String :=
  "Bearer " ++ Json.pyFormat access_token

/-- One outbound HTTP request issued via `requests.get`. -/
structure HttpCall where
  url : String
  params : List (String × Option String)
  auth : Auth

/-- A Pyramid view response: an HTML `Response(body)` or an `HTTPFound`
redirect (HTTP 302, a 3xx) to a location. -/
inductive Resp where
  | html (body : String) : Resp
  | found (location : String) : Resp

/-- The application settings dict built by `app_factory`; both values come
from `os.environ.get` and may be `None`. -/
structure Settings where
  client_id : Option String
  client_secret : Option String

/-- The relevant parts of a Pyramid request: query parameters, the value of
`request.route_url('callback')`, the route generator
`request.route_url('user', username=u)`, and `request.matchdict`. -/
structure Request where
  params : List (String × String)
  route_url_callback : String
  route_url_user : String → String
  matchdict_username : Option String

def AUTHORIZE_ENDPOINT : String := "https://www.bouncer.io/oauth/authorize"

def TOKEN_ENDPOINT : String := "https://www.bouncer.io/oauth/token"

def USER_ENDPOINT : String := "https://www.bouncer.io/api/user"

/-- Python 2 `repr` of the request params as a WebOb multidict, which is
what `'{0}'.format(request.params)` interpolates in the error view. -/
def formatParams (ps : List (String × String)) : String :=
  "NestedMultiDict([" ++
    String.intercalate ", "
      (ps.map (fun kv => "(u\x27" ++ kv.1 ++ "\x27, u\x27" ++ kv.2 ++ "\x27)")) ++
    "])"

/-- The index view's markup with the login URL substituted for `{0}`. -/
def indexMarkup (login_url : String) : String :=
  "\n      <h1>Sign In</h1>\n      <p><a href=\"" ++ login_url ++
    "\">Sign in with Bouncer</a>.</p>\n    "

/-- The callback view's error markup with `request.params` substituted. -/
def errorMarkup (payload : String) : String :=
  "\n          <h1>Whoops!</h1>\n          <p><a href=\"/\">Try that again</a></p>.\n          <pre>" ++
    payload ++ "</pre>\n        "

/-- The user view's markup with the username substituted for `{0}`. -/
def userMarkup (username : String) : String :=
  "\n      <h1>Welcome " ++ username ++
    "!</h1>\n      <p><a href=\"/\">Go again</a></p>.\n    "

/-- The characters `urllib.quote` never escapes (Python 2 `always_safe`):
letters, digits, and `_`, `.`, `-`. -/
def alwaysSafe (c : Char) : Bool :=
  (48 ≤ c.toNat && c.toNat ≤ 57) || (65 ≤ c.toNat && c.toNat ≤ 90) ||
  (97 ≤ c.toNat && c.toNat ≤ 122) || c == '_' || c == '.' || c == '-'

/-- Uppercase hexadecimal digit, mirroring the `'%%%02X'` formatting used by
`urllib.quote`. -/
def hexUpper : Nat → Char
  | 0 => '0' | 1 => '1' | 2 => '2' | 3 => '3' | 4 => '4'
  | 5 => '5' | 6 => '6' | 7 => '7' | 8 => '8' | 9 => '9'
  | 10 => 'A' | 11 => 'B' | 12 => 'C' | 13 => 'D' | 14 => 'E' | 15 => 'F'
  | _ => '0'

/-- Per-character encoding of Python 2 `urllib.quote_plus`: safe characters
pass through, a space becomes `+`, every other byte becomes `%XX`. -/
def quoteChar (c : Char) : List Char :=
  if alwaysSafe c then [c]
  else if c == ' ' then ['+']
  else ['%', hexUpper (c.toNat / 16), hexUpper (c.toNat % 16)]

/-- `urllib.quote_plus` on a byte string, as a character list. -/
def quotePlusList (s : List Char) : List Char :=
  (s.map quoteChar).flatten

/-- Python 2 `urllib.quote_plus`. -/
def quote_plus (s : String) : String :=
  (quotePlusList s.toList).asString

/-- One `k=v` pair of `urllib.urlencode` output. -/
def urlencodePair (kv : String × String) : List Char :=
  quotePlusList kv.1.toList ++ '=' :: quotePlusList kv.2.toList

/-- Python 2 `urllib.urlencode` over the given key/value pairs (the source
builds the dict literally in the order `client_id`, `redirect_uri`,
`response_type`; that literal order is used here). -/
def urlencode (params : List (String × String)) : String :=
  (List.intercalate ['&'] (params.map urlencodePair)).asString

/-- The authorize-request parameters built by `index_view` (lines 54-58). -/
def authorizeParams (client_id redirect_uri : String) : List (String × String) :=
  [("client_id", client_id), ("redirect_uri", redirect_uri), ("response_type", "code")]

/-- The login URL built by `index_view` (line 59):
`'{0}?{1}'.format(AUTHORIZE_ENDPOINT, urlencode(params))`. -/
def login_url (client_id redirect_uri : String) : String :=
  AUTHORIZE_ENDPOINT ++ "?" ++ urlencode (authorizeParams client_id redirect_uri)

/-- `index_view` (lines 48-66): renders a sign-in link to the authorize
endpoint; `settings.get('client_id')` may be `None`, which `urlencode`
stringifies. -/
def index_view (settings : Settings) (req : Request) : Resp :=
  Resp.html (indexMarkup (login_url (pyStr settings.client_id) req.route_url_callback))

/-- The token-endpoint request issued at line 98:
`requests.get(TOKEN_ENDPOINT, params=params, auth=auth)` with
`params = {code, grant_type, redirect_uri}` and the Basic-auth tuple
`(settings.get('client_id'), settings.get('client_secret'))`. -/
def tokenCall (settings : Settings) (req : Request) : HttpCall :=
  { url := TOKEN_ENDPOINT,
    params := [("code", getParam req.params "code"),
               ("grant_type", some "authorization_code"),
               ("redirect_uri", some req.route_url_callback)],
    auth := Auth.basic settings.client_id settings.client_secret }

/-- The profile-endpoint request issued at line 103:
`requests.get(USER_ENDPOINT, auth=BearerAuth(token_data['access_token']))`. -/
def profileCall (access_token : Json) : HttpCall :=
  { url := USER_ENDPOINT, params := [], auth := Auth.bearer access_token }

/-- Python `user_data.get('username')` where `user_data` is whatever
`response.json.get('data')` produced: calling `.get` on `None` (or any
non-dict) raises `AttributeError`. -/
def Json.dictGet : Json → String → Except PyError Json
  | Json.obj fields, k => Except.ok (jsonGetD fields k)
  | _, _ => Except.error (PyError.attributeError "get")

/-- `callback_view` (lines 68-110), embedded with an explicit trace of the
outbound calls it issues.  `token_json` and `user_json` are the parsed JSON
object bodies the token and profile endpoints respond with.  Faithful to the
source, including its faults: a token response without `access_token` raises
`KeyError` (line 102); a profile response without `data` raises
`AttributeError` (line 108, `.get` on `None`); and the final redirect
(line 110) references the undefined name `location` (line 109 bound `url`),
raising `NameError` before any redirect is returned. -/
def callback_view (settings : Settings) (req : Request)
    (token_json user_json : List (String × Json)) :
    List HttpCall × Except PyError Resp :=
  let error := getParam req.params "error"
  if truthy error then
    ([], Except.ok (Resp.html (errorMarkup (formatParams req.params))))
  else
    let tcall := tokenCall settings req
    match jsonLookup token_json "access_token" with
    | none => ([tcall], Except.error (PyError.keyError "access_token"))
    | some tok =>
      let pcall := profileCall tok
      let user_data := jsonGetD user_json "data"
      match Json.dictGet user_data "username" with
      | Except.error e => ([tcall, pcall], Except.error e)
      | Except.ok username =>
        let _url := req.route_url_user (Json.pyFormat username)
        ([tcall, pcall], Except.error (PyError.nameError "location"))

/-- `user_view` (lines 112-123): renders the username from the matchdict
into the markup with no escaping. -/
def user_view (req : Request) : Resp :=
  Resp.html (userMarkup (pyStr req.matchdict_username))

/-- Model of `os.environ.get`. -/
def envGet (env : List (String × String)) (k : String) : Option String :=
  (env.find? (fun kv => kv.1 == k)).map (fun kv => kv.2)

/-- The configured application: the settings dict plus the three registered
routes. -/
structure App where
  settings : Settings
  routes : List (String × String)

/-- `app_factory` (lines 126-146): reads the client credentials from the
environment (possibly `None`), builds the settings dict, registers the three
routes, and returns the app.  It is total: no check aborts startup. -/
def app_factory (env : List (String × String)) : App :=
  { settings := { client_id := envGet env "BOUNCER_CLIENT_ID",
                  client_secret := envGet env "BOUNCER_CLIENT_SECRET" },
    routes := [("index", "/"), ("callback", "auth/callback"), ("user", "user/:username")] }

/-- Value of a hexadecimal digit character, else `none`. -/
def hexVal (c : Char) : Option Nat :=
  if 48 ≤ c.toNat && c.toNat ≤ 57 then some (c.toNat - 48)
  else if 65 ≤ c.toNat && c.toNat ≤ 70 then some (c.toNat - 55)
  else if 97 ≤ c.toNat && c.toNat ≤ 102 then some (c.toNat - 87)
  else none

mutual

/-- Decoder side of the spec's round-trip property, following
`urlparse.parse_qsl`'s unquoting: `+` decodes to a space and `%XY` (two hex
digits) decodes to the byte `16*X + Y`; a malformed escape is kept
literally. -/
def unquoteList : List Char → List Char
  | [] => []
  | c :: rest =>
    if c == '+' then ' ' :: unquoteList rest
    else if c == '%' then unquoteEscape rest
    else c :: unquoteList rest
  termination_by l => (l.length, 0)

/-- Decode what follows a `%`: two hex digits form a byte; anything else
leaves the `%` literal. -/
def unquoteEscape : List Char → List Char
  | a :: b :: rest =>
    match hexVal a, hexVal b with
    | some x, some y => Char.ofNat (16 * x + y) :: unquoteList rest
    | _, _ => '%' :: unquoteList (a :: b :: rest)
  | short => '%' :: unquoteList short
  termination_by l => (l.length, 1)

end

/-- Split a character list on every occurrence of `sep`. -/
def splitOnSep (sep : Char) : List Char → List (List Char)
  | [] => [[]]
  | c :: rest =>
    match splitOnSep sep rest with
    | [] => [[c]]
    | h :: t => if c == sep then [] :: h :: t else (c :: h) :: t

/-- Split a name/value pair on its first `=`, as `name_value.split('=', 1)`;
`none` when there is no `=`. -/
def splitFirstEq : List Char → Option (List Char × List Char)
  | [] => none
  | c :: rest =>
    if c == '=' then some ([], rest)
    else
      match splitFirstEq rest with
      | none => none
      | some p => some (c :: p.1, p.2)

/-- Decode one `name=value` piece as `urlparse.parse_qsl` does with its
default arguments: pieces without `=` and pieces with an empty value are
dropped. -/
def parsePair (piece : List Char) : Option (String × String) :=
  match splitFirstEq piece with
  | none => none
  | some nv =>
    if nv.2.isEmpty then none
    else some ((unquoteList nv.1).asString, (unquoteList nv.2).asString)

/-- Decoder side of the spec's round-trip property, following Python 2
`urlparse.parse_qsl` with default arguments: the query string splits on both
`&` and `;`, and each piece decodes via `parsePair`. -/
def parse_qsl (qs : String) : List (String × String) :=
  (((splitOnSep '&' qs.toList).map (splitOnSep ';')).flatten).filterMap parsePair


theorem hexVal_hexUpper : ∀ n : Nat, n < 16 → hexVal (hexUpper n) = some n := by
  decide

theorem hexUpper_ne_sep {n : Nat} (hn : n < 16) (d : Char)
    (hd : d = '&' ∨ d = ';' ∨ d = '=' ∨ d = '%' ∨ d = '+') : hexUpper n ≠ d := by
  rcases hd with rfl | rfl | rfl | rfl | rfl <;> revert n hn <;> decide

theorem not_mem_quoteChar {c d : Char} (hc : c.toNat < 256)
    (hd : d = '&' ∨ d = ';' ∨ d = '=') : d ∉ quoteChar c := by
  have h1 : c.toNat / 16 < 16 := by omega
  have h2 : c.toNat % 16 < 16 := by omega
  have ha : hexUpper (c.toNat / 16) ≠ d := hexUpper_ne_sep h1 d (by tauto)
  have hb : hexUpper (c.toNat % 16) ≠ d := hexUpper_ne_sep h2 d (by tauto)
  unfold quoteChar
  split
  case isTrue hsafe =>
    intro hmem
    rcases List.mem_singleton.mp hmem with rfl
    rcases hd with rfl | rfl | rfl <;> exact absurd hsafe (by decide)
  case isFalse =>
    split
    case isTrue =>
      intro hmem
      have hdp : d = '+' := List.mem_singleton.mp hmem
      rcases hd with rfl | rfl | rfl <;> exact absurd hdp (by decide)
    case isFalse =>
      intro hmem
      rcases List.mem_cons.mp hmem with hdp | hmem2
      · rcases hd with rfl | rfl | rfl <;> exact absurd hdp (by decide)
      rcases List.mem_cons.mp hmem2 with hdp | hmem3
      · exact ha hdp.symm
      exact hb (List.mem_singleton.mp hmem3).symm

theorem quoteChar_ne_nil (c : Char) : quoteChar c ≠ [] := by
  unfold quoteChar
  split
  · simp
  split <;> simp

theorem unquoteList_quoteChar (c : Char) (hc : c.toNat < 256) (rest : List Char) :
    unquoteList (quoteChar c ++ rest) = c :: unquoteList rest := by
  unfold quoteChar
  split
  case isTrue hsafe =>
    have hplus : ¬(c == '+') = true := by
      rcases eq_or_ne c '+' with rfl | hne
      · exact absurd hsafe (by decide)
      simp [hne]
    have hpct : ¬(c == '%') = true := by
      rcases eq_or_ne c '%' with rfl | hne
      · exact absurd hsafe (by decide)
      simp [hne]
    rw [List.cons_append, List.nil_append, unquoteList, if_neg hplus, if_neg hpct]
  case isFalse =>
    split
    case isTrue hsp =>
      rw [List.cons_append, List.nil_append, unquoteList, if_pos (by decide)]
      rcases eq_of_beq hsp with rfl
      rfl
    case isFalse =>
      have h1 : c.toNat / 16 < 16 := by omega
      have h2 : c.toNat % 16 < 16 := by omega
      rw [List.cons_append, List.cons_append, List.cons_append, List.nil_append,
        unquoteList, if_neg (by decide), if_pos (by decide), unquoteEscape,
        hexVal_hexUpper _ h1, hexVal_hexUpper _ h2]
      show Char.ofNat (16 * (c.toNat / 16) + c.toNat % 16) :: unquoteList rest =
        c :: unquoteList rest
      have hmod : 16 * (c.toNat / 16) + c.toNat % 16 = c.toNat := by omega
      rw [hmod, Char.ofNat_toNat]

theorem unquoteList_quotePlusList (s rest : List Char)
    (h : ∀ c ∈ s, c.toNat < 256) :
    unquoteList (quotePlusList s ++ rest) = s ++ unquoteList rest := by
  induction s with
  | nil => simp [quotePlusList]
  | cons c s ih =>
    have hc : c.toNat < 256 := h c (List.mem_cons_self c s)
    have hs : ∀ d ∈ s, d.toNat < 256 := fun d hd => h d (List.mem_cons_of_mem c hd)
    rw [quotePlusList, List.map_cons, List.flatten_cons, List.append_assoc]
    rw [unquoteList_quoteChar c hc]
    show c :: unquoteList (quotePlusList s ++ rest) = c :: s ++ unquoteList rest
    rw [ih hs, List.cons_append]

theorem unquote_quote (s : List Char) (h : ∀ c ∈ s, c.toNat < 256) :
    unquoteList (quotePlusList s) = s := by
  have hq := unquoteList_quotePlusList s [] h
  rw [List.append_nil] at hq
  rw [hq, unquoteList, List.append_nil]

theorem not_mem_quotePlusList {s : List Char} (h : ∀ c ∈ s, c.toNat < 256)
    {d : Char} (hd : d = '&' ∨ d = ';' ∨ d = '=') : d ∉ quotePlusList s := by
  induction s with
  | nil => simp [quotePlusList]
  | cons c s ih =>
    have hc : c.toNat < 256 := h c (List.mem_cons_self c s)
    have hs : ∀ e ∈ s, e.toNat < 256 := fun e he => h e (List.mem_cons_of_mem c he)
    rw [quotePlusList, List.map_cons, List.flatten_cons]
    intro hmem
    rcases List.mem_append.mp hmem with hmem1 | hmem2
    · exact not_mem_quoteChar hc hd hmem1
    exact ih hs hmem2

theorem quotePlusList_ne_nil {s : List Char} (h : s ≠ []) : quotePlusList s ≠ [] := by
  cases s with
  | nil => exact absurd rfl h
  | cons c s =>
    rw [quotePlusList, List.map_cons, List.flatten_cons]
    intro hnil
    exact quoteChar_ne_nil c (List.append_eq_nil.mp hnil).1

theorem splitOnSep_ne_nil (sep : Char) (l : List Char) : splitOnSep sep l ≠ [] := by
  cases l with
  | nil => simp [splitOnSep]
  | cons c rest =>
    rw [splitOnSep]
    split
    · simp
    split <;> simp

theorem splitOnSep_of_not_mem {sep : Char} {a : List Char} (h : sep ∉ a) :
    splitOnSep sep a = [a] := by
  induction a with
  | nil => rfl
  | cons c rest ih =>
    have hc : ¬(c == sep) = true := by
      simp only [List.mem_cons] at h
      simp only [beq_iff_eq]
      exact fun hcs => h (Or.inl hcs.symm)
    have hrest : sep ∉ rest := fun hm => h (List.mem_cons_of_mem c hm)
    rw [splitOnSep, ih hrest]
    simp [hc]

theorem splitOnSep_append {sep : Char} {a : List Char} (b : List Char) (h : sep ∉ a) :
    splitOnSep sep (a ++ sep :: b) = a :: splitOnSep sep b := by
  induction a with
  | nil =>
    rcases hres : splitOnSep sep b with _ | ⟨hd, tl⟩
    · exact absurd hres (splitOnSep_ne_nil sep b)
    rw [List.nil_append, splitOnSep, hres]
    simp
  | cons c rest ih =>
    have hc : ¬(c == sep) = true := by
      simp only [List.mem_cons] at h
      simp only [beq_iff_eq]
      exact fun hcs => h (Or.inl hcs.symm)
    have hrest : sep ∉ rest := fun hm => h (List.mem_cons_of_mem c hm)
    rw [List.cons_append, splitOnSep, ih hrest]
    simp [hc]

theorem splitFirstEq_append {a : List Char} (b : List Char) (h : '=' ∉ a) :
    splitFirstEq (a ++ '=' :: b) = some (a, b) := by
  induction a with
  | nil => rw [List.nil_append, splitFirstEq, if_pos (by simp)]
  | cons c rest ih =>
    have hc : ¬(c == '=') = true := by
      simp only [List.mem_cons] at h
      simp only [beq_iff_eq]
      exact fun hcs => h (Or.inl hcs.symm)
    rw [List.cons_append, splitFirstEq, if_neg hc, ih fun hm => h (List.mem_cons_of_mem c hm)]

theorem asString_toList (s : String) : s.toList.asString = s := rfl

theorem toList_ne_nil {s : String} (h : s ≠ "") : s.toList ≠ [] := by
  intro hnil
  apply h
  cases s with
  | mk data =>
    simp only [String.toList] at hnil
    simp [hnil]

theorem parsePair_urlencodePair (k v : String)
    (hk : ∀ c ∈ k.toList, c.toNat < 256) (hv : ∀ c ∈ v.toList, c.toNat < 256)
    (hvne : v ≠ "") :
    parsePair (urlencodePair (k, v)) = some (k, v) := by
  have hkeq : '=' ∉ quotePlusList k.toList :=
    not_mem_quotePlusList hk (Or.inr (Or.inr rfl))
  have hqv : quotePlusList v.toList ≠ [] := quotePlusList_ne_nil (toList_ne_nil hvne)
  rw [parsePair, urlencodePair, splitFirstEq_append _ hkeq]
  show (if (quotePlusList v.toList).isEmpty = true then none
    else some ((unquoteList (quotePlusList k.toList)).asString,
      (unquoteList (quotePlusList v.toList)).asString)) = some (k, v)
  rw [if_neg (by simpa using hqv),
    unquote_quote _ hk, unquote_quote _ hv, asString_toList, asString_toList]

theorem urlencode_toList_three (a b c : String × String) :
    (urlencode [a, b, c]).toList =
      urlencodePair a ++ '&' :: (urlencodePair b ++ '&' :: urlencodePair c) := by
  show List.intercalate ['&'] [urlencodePair a, urlencodePair b, urlencodePair c] = _
  simp [List.intercalate, List.intersperse]

theorem not_amp_mem_urlencodePair {k v : String}
    (hk : ∀ c ∈ k.toList, c.toNat < 256) (hv : ∀ c ∈ v.toList, c.toNat < 256) :
    '&' ∉ urlencodePair (k, v) := by
  intro hmem
  rw [urlencodePair] at hmem
  rcases List.mem_append.mp hmem with h1 | h2
  · exact not_mem_quotePlusList hk (Or.inl rfl) h1
  rcases List.mem_cons.mp h2 with he | h3
  · exact absurd he (by decide)
  exact not_mem_quotePlusList hv (Or.inl rfl) h3

theorem not_semi_mem_urlencodePair {k v : String}
    (hk : ∀ c ∈ k.toList, c.toNat < 256) (hv : ∀ c ∈ v.toList, c.toNat < 256) :
    ';' ∉ urlencodePair (k, v) := by
  intro hmem
  rw [urlencodePair] at hmem
  rcases List.mem_append.mp hmem with h1 | h2
  · exact not_mem_quotePlusList hk (Or.inr (Or.inl rfl)) h1
  rcases List.mem_cons.mp h2 with he | h3
  · exact absurd he (by decide)
  exact not_mem_quotePlusList hv (Or.inr (Or.inl rfl)) h3

theorem parse_qsl_urlencode_three (k1 v1 k2 v2 k3 v3 : String)
    (hk1 : ∀ c ∈ k1.toList, c.toNat < 256) (hv1 : ∀ c ∈ v1.toList, c.toNat < 256)
    (hk2 : ∀ c ∈ k2.toList, c.toNat < 256) (hv2 : ∀ c ∈ v2.toList, c.toNat < 256)
    (hk3 : ∀ c ∈ k3.toList, c.toNat < 256) (hv3 : ∀ c ∈ v3.toList, c.toNat < 256)
    (hv1ne : v1 ≠ "") (hv2ne : v2 ≠ "") (hv3ne : v3 ≠ "") :
    parse_qsl (urlencode [(k1, v1), (k2, v2), (k3, v3)]) =
      [(k1, v1), (k2, v2), (k3, v3)] := by
  rw [parse_qsl, urlencode_toList_three,
    splitOnSep_append _ (not_amp_mem_urlencodePair hk1 hv1),
    splitOnSep_append _ (not_amp_mem_urlencodePair hk2 hv2),
    splitOnSep_of_not_mem (not_amp_mem_urlencodePair hk3 hv3)]
  rw [List.map_cons, List.map_cons, List.map_cons, List.map_nil,
    splitOnSep_of_not_mem (not_semi_mem_urlencodePair hk1 hv1),
    splitOnSep_of_not_mem (not_semi_mem_urlencodePair hk2 hv2),
    splitOnSep_of_not_mem (not_semi_mem_urlencodePair hk3 hv3)]
  simp only [List.flatten_cons, List.flatten_nil]
  rw [List.singleton_append, List.singleton_append, List.singleton_append]
  rw [List.filterMap_cons, parsePair_urlencodePair k1 v1 hk1 hv1 hv1ne]
  rw [List.filterMap_cons, parsePair_urlencodePair k2 v2 hk2 hv2 hv2ne]
  rw [List.filterMap_cons, parsePair_urlencodePair k3 v3 hk3 hv3 hv3ne]
  rfl

/-- Shared fixture: settings with both client credentials present. -/
def demoSettings : Settings :=
  { client_id := some "demo-client-id", client_secret := some "demo-client-secret" }

/-- Shared fixture: a callback request carrying only a `code` parameter. -/
def codeRequest (code : String) : Request :=
  { params := [("code", code)],
    route_url_callback := "http://localhost:6543/auth/callback",
    route_url_user := fun u => "http://localhost:6543/user/" ++ u,
    matchdict_username := none }

/-- Shared fixture: a callback request whose `error` parameter is present
but empty (`?error=`). -/
def emptyErrorRequest : Request :=
  { params := [("error", "")],
    route_url_callback := "http://localhost:6543/auth/callback",
    route_url_user := fun u => "http://localhost:6543/user/" ++ u,
    matchdict_username := none }

/-- Shared fixture: a callback request with `error=access_denied`. -/
def accessDeniedRequest : Request :=
  { params := [("error", "access_denied")],
    route_url_callback := "http://localhost:6543/auth/callback",
    route_url_user := fun u => "http://localhost:6543/user/" ++ u,
    matchdict_username := none }

/-- Shared fixture: a request routed to the user view with username
`<script>` in the matchdict. -/
def scriptRequest : Request :=
  { params := [],
    route_url_callback := "http://localhost:6543/auth/callback",
    route_url_user := fun u => "http://localhost:6543/user/" ++ u,
    matchdict_username := some "<script>" }

theorem callback_error_branch (settings : Settings) (req : Request)
    (token_json user_json : List (String × Json))
    (h : truthy (getParam req.params "error") = true) :
    callback_view settings req token_json user_json =
      ([], Except.ok (Resp.html (errorMarkup (formatParams req.params)))) := by
  simp [callback_view, h]

theorem callback_trace_shape (settings : Settings) (req : Request)
    (token_json user_json : List (String × Json))
    (h : truthy (getParam req.params "error") = false) :
    (jsonLookup token_json "access_token" = none ∧
      (callback_view settings req token_json user_json).1 = [tokenCall settings req]) ∨
    ∃ tok, jsonLookup token_json "access_token" = some tok ∧
      (callback_view settings req token_json user_json).1 =
        [tokenCall settings req, profileCall tok] := by
  rcases hl : jsonLookup token_json "access_token" with _ | tok
  · left
    exact ⟨rfl, by simp [callback_view, h, hl]⟩
  right
  refine ⟨tok, rfl, ?_⟩
  rcases hd : Json.dictGet (jsonGetD user_json "data") "username" with e | u <;>
    simp [callback_view, h, hl, hd]

/-- C1: the spec requires that a callback with a valid `code`, a token
response `{"access_token": "tok123"}` and a profile response
`{"data": {"username": "alice"}}` ends in a 3xx redirect whose target
encodes `username=alice`.  The code instead raises `NameError`: line 109
binds `url` but line 110 returns `HTTPFound(location=location)` with
`location` undefined, so no redirect is ever produced (the spec flags this
dangling reference as a defect). -/
theorem C1_callback_raises_nameerror_instead_of_redirect :
    callback_view demoSettings (codeRequest "splendidcode")
      [("access_token", Json.str "tok123")]
      [("data", Json.obj [("username", Json.str "alice")])] =
    ([tokenCall demoSettings (codeRequest "splendidcode"),
      profileCall (Json.str "tok123")],
     Except.error (PyError.nameError "location")) := rfl

/-- C2: the spec requires that a token response lacking `access_token`
surfaces an `UpstreamTokenError` and no profile call is made.  The code
does make no profile call (the trace holds only the token call), but it
raises an unhandled `KeyError` at `token_data['access_token']` (line 102)
rather than a distinguishable `UpstreamTokenError` (the spec flags this
missing check as a known gap). -/
theorem C2_missing_access_token_raises_keyerror :
    callback_view demoSettings (codeRequest "splendidcode")
      [("token_type", Json.str "bearer")]
      [("data", Json.obj [("username", Json.str "alice")])] =
    ([tokenCall demoSettings (codeRequest "splendidcode")],
     Except.error (PyError.keyError "access_token")) := rfl

/-- C3: the spec requires that a profile response lacking `data.username`
surfaces an `UpstreamProfileError`.  The code instead raises an unhandled
`AttributeError`: `response.json.get('data')` yields `None` when `data` is
missing, and `None.get('username')` (line 108) has no such attribute (the
spec flags the missing check as a gap; when `data` is present but
`username` is missing the code proceeds with `None` and hits the C1
`NameError` instead — in neither case an `UpstreamProfileError`). -/
theorem C3_missing_data_raises_attributeerror :
    callback_view demoSettings (codeRequest "splendidcode")
      [("access_token", Json.str "tok123")]
      [("error", Json.str "not_found")] =
    ([tokenCall demoSettings (codeRequest "splendidcode"),
      profileCall (Json.str "tok123")],
     Except.error (PyError.attributeError "get")) := rfl

/-- C4 counterexample: a callback request whose `error` parameter is
present but empty (`?error=`).  Python branches on the truthiness of the
value (`if error:`), not on presence, so the empty-valued `error` does not
short-circuit: the handler proceeds and issues the token-endpoint call, so
the outbound trace is non-empty, contradicting the claim's "zero outbound
network calls" for every request in which `error` is present. -/
theorem C4_empty_error_param_still_calls_token_endpoint :
    getParam emptyErrorRequest.params "error" = some "" ∧
    (callback_view demoSettings emptyErrorRequest [] []).1 =
      [tokenCall demoSettings emptyErrorRequest] ∧
    (callback_view demoSettings emptyErrorRequest [] []).1 ≠ [] :=
  ⟨rfl, rfl, fun h => List.noConfusion h⟩

/-- C4 (amended): for every callback request in which the `error` query
parameter is present with a non-empty value, the handler returns the error
presentation carrying the raw request parameters and performs zero
outbound network calls (empty trace). -/
theorem C4_nonempty_error_short_circuits (settings : Settings) (req : Request)
    (token_json user_json : List (String × Json)) (e : String)
    (he : getParam req.params "error" = some e) (hne : e ≠ "") :
    callback_view settings req token_json user_json =
      ([], Except.ok (Resp.html (errorMarkup (formatParams req.params)))) := by
  apply callback_error_branch
  have hie : e.isEmpty = false := by
    rcases hb : e.isEmpty with _ | _
    · rfl
    exact absurd ((String.isEmpty_iff e).mp hb) hne
  rw [he, truthy, hie]
  rfl

/-- Witness for C4 (amended) at `error=access_denied`: the error
presentation is returned and the outbound trace is empty. -/
theorem C4_nonempty_error_short_circuits_witness :
    callback_view demoSettings accessDeniedRequest [] [] =
      ([], Except.ok (Resp.html (errorMarkup (formatParams accessDeniedRequest.params)))) :=
  C4_nonempty_error_short_circuits demoSettings accessDeniedRequest [] []
    "access_denied" rfl (by decide)

/-- C5: for every valid pair (non-empty byte strings, as Python 2 `str`
values are byte strings), the authorize URL built by the index view is the
authorize endpoint followed by `?` and the form-encoding of exactly the
three parameters `client_id`, `redirect_uri`, `response_type=code`, and
decoding the query string recovers exactly that triple. -/
theorem C5_authorize_url_roundtrip (client_id redirect_uri : String)
    (hcid : ∀ c ∈ client_id.toList, c.toNat < 256)
    (hruri : ∀ c ∈ redirect_uri.toList, c.toNat < 256)
    (hcne : client_id ≠ "") (hrne : redirect_uri ≠ "") :
    login_url client_id redirect_uri =
      AUTHORIZE_ENDPOINT ++ "?" ++ urlencode (authorizeParams client_id redirect_uri) ∧
    parse_qsl (urlencode (authorizeParams client_id redirect_uri)) =
      [("client_id", client_id), ("redirect_uri", redirect_uri),
       ("response_type", "code")] := by
  refine ⟨rfl, ?_⟩
  exact parse_qsl_urlencode_three "client_id" client_id "redirect_uri" redirect_uri
    "response_type" "code" (by decide) hcid (by decide) hruri (by decide) (by decide)
    hcne hrne (by decide)

/-- Witness for C5 at the demo's own credentials and callback URL. -/
theorem C5_authorize_url_roundtrip_witness :
    parse_qsl (urlencode (authorizeParams "demo-client-id"
        "http://localhost:6543/auth/callback")) =
      [("client_id", "demo-client-id"),
       ("redirect_uri", "http://localhost:6543/auth/callback"),
       ("response_type", "code")] :=
  (C5_authorize_url_roundtrip "demo-client-id" "http://localhost:6543/auth/callback"
    (by decide) (by decide) (by decide) (by decide)).2

/-- C6: the spec requires the profile-display view to escape the username;
given `<script>` the rendered output must not contain that string
unescaped.  The code interpolates the matchdict username into the markup
with no escaping (`markup.format(username)`, line 123), so the body
contains `<script>` verbatim (the spec flags this as a markup-injection
defect). -/
theorem C6_user_view_emits_script_unescaped :
    user_view scriptRequest =
      Resp.html ("\n      <h1>Welcome " ++ "<script>" ++
        "!</h1>\n      <p><a href=\"/\">Go again</a></p>.\n    ") := rfl

/-- C7: for every callback request carrying a `code` and no `error`, the
first outbound call is to the token endpoint with exactly the parameters
`code`, `grant_type=authorization_code` and `redirect_uri`, authenticated
with the `(client_id, client_secret)` Basic-auth tuple. -/
theorem C7_token_request_params_and_basic_auth (settings : Settings) (req : Request)
    (token_json user_json : List (String × Json)) (c : String)
    (herr : getParam req.params "error" = none)
    (hcode : getParam req.params "code" = some c) :
    (callback_view settings req token_json user_json).1.head? =
      some { url := TOKEN_ENDPOINT,
             params := [("code", some c),
                        ("grant_type", some "authorization_code"),
                        ("redirect_uri", some req.route_url_callback)],
             auth := Auth.basic settings.client_id settings.client_secret } := by
  have ht : truthy (getParam req.params "error") = false := by rw [herr]; rfl
  rcases callback_trace_shape settings req token_json user_json ht with
    ⟨_, h1⟩ | ⟨tok, _, h2⟩
  · rw [h1, List.head?, tokenCall, hcode]
  rw [h2, List.head?, tokenCall, hcode]

/-- Witness for C7: with `code=splendidcode` the first outbound call is the
fully-specified token-endpoint request. -/
theorem C7_token_request_params_and_basic_auth_witness :
    (callback_view demoSettings (codeRequest "splendidcode") [] []).1.head? =
      some { url := TOKEN_ENDPOINT,
             params := [("code", some "splendidcode"),
                        ("grant_type", some "authorization_code"),
                        ("redirect_uri", some "http://localhost:6543/auth/callback")],
             auth := Auth.basic (some "demo-client-id") (some "demo-client-secret") } :=
  C7_token_request_params_and_basic_auth demoSettings (codeRequest "splendidcode")
    [] [] "splendidcode" rfl rfl

/-- C8: in every invocation of the callback handler the outbound trace is
empty, just the token call, or the token call followed by the profile
call; the profile-endpoint call never occurs before the token call, and
its Bearer credential is exactly the `access_token` extracted from the
token response. -/
theorem C8_outbound_calls_sequential_bearer_is_token (settings : Settings)
    (req : Request) (token_json user_json : List (String × Json)) :
    (callback_view settings req token_json user_json).1 = [] ∨
    (callback_view settings req token_json user_json).1 = [tokenCall settings req] ∨
    ∃ tok, jsonLookup token_json "access_token" = some tok ∧
      (callback_view settings req token_json user_json).1 =
        [tokenCall settings req,
         { url := USER_ENDPOINT, params := [], auth := Auth.bearer tok }] := by
  rcases hb : truthy (getParam req.params "error") with _ | _
  · rcases callback_trace_shape settings req token_json user_json hb with
      ⟨_, h1⟩ | ⟨tok, hl, h2⟩
    · exact Or.inr (Or.inl h1)
    exact Or.inr (Or.inr ⟨tok, hl, h2⟩)
  left
  rw [callback_error_branch settings req token_json user_json hb]

/-- C9: the spec requires startup to fail with a configuration error when
either credential environment variable is unset.  `app_factory` is total:
with an empty environment it still builds and returns the configured app,
with both credentials `None` (failure is deferred to request time; the
spec says a `ConfigurationError` should abort startup). -/
theorem C9_app_factory_starts_with_missing_credentials :
    app_factory [] =
      { settings := { client_id := none, client_secret := none },
        routes := [("index", "/"), ("callback", "auth/callback"),
                   ("user", "user/:username")] } := rfl

/-- C10: for every callback request with neither `code` nor `error`, the
handler does not short-circuit or reject: the first outbound call is still
the token-endpoint request, with a `None` value for the `code`
parameter. -/
theorem C10_absent_code_and_error_still_calls_token_endpoint (settings : Settings)
    (req : Request) (token_json user_json : List (String × Json))
    (herr : getParam req.params "error" = none)
    (hcode : getParam req.params "code" = none) :
    (callback_view settings req token_json user_json).1.head? =
      some { url := TOKEN_ENDPOINT,
             params := [("code", none),
                        ("grant_type", some "authorization_code"),
                        ("redirect_uri", some req.route_url_callback)],
             auth := Auth.basic settings.client_id settings.client_secret } := by
  have ht : truthy (getParam req.params "error") = false := by rw [herr]; rfl
  rcases callback_trace_shape settings req token_json user_json ht with
    ⟨_, h1⟩ | ⟨tok, _, h2⟩
  · rw [h1, List.head?, tokenCall, hcode]
  rw [h2, List.head?, tokenCall, hcode]

/-- Witness for C10: a callback request with no parameters at all still
produces the token-endpoint call with `code=None`. -/
theorem C10_absent_code_and_error_still_calls_token_endpoint_witness :
    (callback_view demoSettings
      { params := [],
        route_url_callback := "http://localhost:6543/auth/callback",
        route_url_user := fun u => "http://localhost:6543/user/" ++ u,
        matchdict_username := none } [] []).1.head? =
      some { url := TOKEN_ENDPOINT,
             params := [("code", none),
                        ("grant_type", some "authorization_code"),
                        ("redirect_uri", some "http://localhost:6543/auth/callback")],
             auth := Auth.basic (some "demo-client-id") (some "demo-client-secret") } :=
  C10_absent_code_and_error_still_calls_token_endpoint demoSettings
    { params := [],
      route_url_callback := "http://localhost:6543/auth/callback",
      route_url_user := fun u => "http://localhost:6543/user/" ++ u,
      matchdict_username := none } [] [] rfl rfl
